import Mathlib

/-!
Verification of the context-aware completion engine of an interactive MySQL
shell (`src/completion/{engine,metadata,suggestion}.rs`).

Strings are modelled as lists of characters (`Str`).  Rust's
`str::to_uppercase`/`to_lowercase` are modelled per character, `trim`,
`split_whitespace`, `starts_with`, `ends_with` and `contains` are modelled
by the corresponding list operations below; all inputs of interest are ASCII,
where these agree with the Rust behaviour.

The engine delegates one step — "try to parse the line as a complete SQL
statement" — to the external `sqlparser` crate.  That step is modelled as an
explicit oracle parameter `parse : Str → Option (List SqlStmt)` returning
`none` when parsing fails and the shape of the parsed statements otherwise;
every theorem either holds for all oracles or carries an explicit hypothesis
about the oracle's answer on the concrete line involved, stating the known
behaviour of `sqlparser` there.

The two mutexes of `SmartSuggestionEngine` are modelled by values: the
metadata mutex as `Option DatabaseMetadata` (`none` = the `try_lock` in the
suggestion path fails because the lock is currently held), and the
current-database mutex (acquired blockingly and infallibly in the source) as
a plain `Option Str`.
-/

/-- Strings, modelled as lists of characters. -/
abbrev Str := List Char

/-- Model of Rust `str::to_uppercase` (per character; exact on ASCII). -/
def toUpperStr (s : Str) : Str := s.map Char.toUpper

/-- Model of Rust `str::to_lowercase` (per character; exact on ASCII). -/
def toLowerStr (s : Str) : Str := s.map Char.toLower

/-- Model of Rust `str::trim`: drop whitespace from both ends. -/
def trimStr (s : Str) : Str :=
  ((s.dropWhile Char.isWhitespace).reverse.dropWhile Char.isWhitespace).reverse

/-- Model of Rust `str::contains` (substring containment). -/
def strContains : Str → Str → Bool
  | [], needle => needle.isEmpty
  | c :: t, needle => needle.isPrefixOf (c :: t) || strContains t needle

/-- `strContains` decides the sublist-infix relation. -/
theorem strContains_eq_true_iff (hay needle : Str) :
    strContains hay needle = true ↔ needle <:+: hay := by
  induction hay with
  | nil =>
    simp [strContains, List.isEmpty_iff]
  | cons c t ih =>
    simp [strContains, List.infix_cons_iff, ih, List.isPrefixOf_iff_prefix]

/-- Model of Rust `str::split_whitespace`: maximal runs of non-whitespace. -/
def splitWhitespaceStr (s : Str) : List Str :=
  let p := s.foldr
    (fun c acc =>
      if c.isWhitespace then
        if acc.2.isEmpty then (acc.1, ([] : Str)) else (acc.2 :: acc.1, ([] : Str))
      else (acc.1, c :: acc.2))
    (([], []) : List Str × Str)
  if p.2.isEmpty then p.1 else p.2 :: p.1

/-- Model of Rust `str::trim_matches(c)`: strip all copies of `c` from both ends. -/
def trimMatches (c : Char) (s : Str) : Str :=
  ((s.dropWhile (· == c)).reverse.dropWhile (· == c)).reverse

/-- The backquote character, used by the suggestion constructors. -/
def backquoteChar : Char := Char.ofNat 96

/-- `InputContext` (engine.rs): the classification of a partially typed line. -/
inductive InputContext where
  | UseCommand
  | FromClause
  | SelectClause
  | WhereClause
  | InsertIntoClause
  | UpdateClause
  | OrderByClause
  | GroupByClause
  | HavingClause
  | JoinOnClause
  | General
deriving DecidableEq, Repr

/-- Shape of the body of a parsed `Statement::Query`: a `SELECT` with flags
recording whether the `FROM` list is non-empty and whether a `WHERE`
selection is present, or some other set expression. -/
inductive SqlQueryBody where
  | select (hasFrom : Bool) (hasSelection : Bool)
  | other
deriving DecidableEq, Repr

/-- Shape of a statement returned by the external SQL parser, as far as
`determine_context_from_statement` inspects it. -/
inductive SqlStmt where
  | query (body : SqlQueryBody)
  | insert
  | update
  | useStmt
  | other
deriving DecidableEq, Repr

/-- The parse oracle modelling `sqlparser::Parser::parse_sql`: `none` when
parsing fails, `some stmts` with the statements' shapes when it succeeds. -/
abbrev ParseOracle := Str → Option (List SqlStmt)

/-- `analyze_query_context` (engine.rs): classify a parsed query body. -/
def analyze_query_context (body : SqlQueryBody) : InputContext :=
  match body with
  | .select hasFrom hasSelection =>
    if hasFrom then
      if hasSelection then .WhereClause else .FromClause
    else .SelectClause
  | .other => .General

/-- `determine_context_from_statement` (engine.rs). -/
def determine_context_from_statement (stmt : SqlStmt) : InputContext :=
  match stmt with
  | .query body => analyze_query_context body
  | .insert => .InsertIntoClause
  | .update => .UpdateClause
  | .useStmt => .UseCommand
  | .other => .General

/-- `analyze_incomplete_sql` (engine.rs): suffix/substring heuristics for
lines the SQL parser rejects; `none` models the `Err` fall-through. -/
def analyze_incomplete_sql (sql : Str) : Option InputContext :=
  let u := toUpperStr sql
  if "WHERE".toList.isSuffixOf u then some .WhereClause
  else if "FROM".toList.isSuffixOf u then some .FromClause
  else if "JOIN".toList.isSuffixOf u then some .FromClause
  else if "ON".toList.isSuffixOf u then some .JoinOnClause
  else if "ORDER BY".toList.isSuffixOf u then some .OrderByClause
  else if "GROUP BY".toList.isSuffixOf u then some .GroupByClause
  else if "HAVING".toList.isSuffixOf u then some .HavingClause
  else if strContains u "WHERE ".toList then some .WhereClause
  else if strContains u "FROM ".toList then some .FromClause
  else if strContains u "JOIN ".toList then some .FromClause
  else if strContains u " ON ".toList then some .JoinOnClause
  else if strContains u "ORDER BY ".toList then some .OrderByClause
  else if strContains u "GROUP BY ".toList then some .GroupByClause
  else if strContains u "HAVING ".toList then some .HavingClause
  else if "SELECT".toList.isPrefixOf u then some .SelectClause
  else if "INSERT INTO".toList.isPrefixOf u then some .InsertIntoClause
  else if "UPDATE".toList.isPrefixOf u then some .UpdateClause
  else none

/-- `analyze_sql_context` (engine.rs): parse, classify the first statement if
any; on a parse error fall through to the incomplete-SQL heuristics. -/
def analyze_sql_context (parse : ParseOracle) (sql : Str) : Option InputContext :=
  match parse sql with
  | some stmts => stmts.head?.map determine_context_from_statement
  | none => analyze_incomplete_sql sql

/-- The word scan of `analyze_context_fallback` (engine.rs).  Faithfully to
the source, the `ORDER`/`GROUP` arms consult the second word of the whole
line (`words[1]`), passed here as `second`. -/
def fallback_scan (second : Option Str) : List Str → Option InputContext
  | [] => none
  | w :: rest =>
    let u := toUpperStr w
    if u == "WHERE".toList then some .WhereClause
    else if u == "FROM".toList || u == "JOIN".toList then some .FromClause
    else if u == "ORDER".toList &&
        (match second with | some s => toUpperStr s == "BY".toList | none => false) then
      some .OrderByClause
    else if u == "GROUP".toList &&
        (match second with | some s => toUpperStr s == "BY".toList | none => false) then
      some .GroupByClause
    else if u == "HAVING".toList then some .HavingClause
    else fallback_scan second rest

/-- `analyze_context_fallback` (engine.rs): USE detection, then the word
scan, then classification by the first word. -/
def analyze_context_fallback (line : Str) : InputContext :=
  let words := splitWhitespaceStr line
  match words with
  | [] => .General
  | w0 :: _ =>
    if toUpperStr w0 == "USE".toList then .UseCommand
    else
      match fallback_scan (words.get? 1) words with
      | some ctx => ctx
      | none =>
        if toUpperStr w0 == "SELECT".toList then .SelectClause
        else if toUpperStr w0 == "INSERT".toList then .InsertIntoClause
        else if toUpperStr w0 == "UPDATE".toList then .UpdateClause
        else .General

/-- `analyze_context` (engine.rs): trim, the fast USE path, the parser-based
path, then the fallback analysis. -/
def analyze_context (parse : ParseOracle) (line : Str) : InputContext :=
  let line_trimmed := trimStr line
  if line_trimmed.isEmpty then .General
  else if (match (splitWhitespaceStr line_trimmed).head? with
           | some w => toUpperStr w == "USE".toList
           | none => false) then
    .UseCommand
  else
    match analyze_sql_context parse line_trimmed with
    | some ctx => ctx
    | none => analyze_context_fallback line_trimmed

/-- `SuggestionCategory` (suggestion.rs). -/
inductive SuggestionCategory where
  | Database
  | Table
  | Column
  | SqlKeyword
  | Function
  | Command
deriving DecidableEq, Repr

/-- `Suggestion` (suggestion.rs): one completion candidate. -/
structure Suggestion where
  text : Str
  description : Str
  category : SuggestionCategory
  relevance : Nat
deriving DecidableEq, Repr

/-- `Suggestion::new` (suggestion.rs): relevance clamped to at most 100. -/
def Suggestion.new (text description : Str) (category : SuggestionCategory)
    (relevance : Nat) : Suggestion :=
  { text := text, description := description, category := category,
    relevance := min relevance 100 }

/-- `Suggestion::database` (suggestion.rs). -/
def Suggestion.database (name : Str) (relevance : Nat) : Suggestion :=
  Suggestion.new ([backquoteChar] ++ name ++ [backquoteChar])
    ("Database: ".toList ++ name) .Database relevance

/-- `Suggestion::table` (suggestion.rs). -/
def Suggestion.table (name : Str) (database : Str) (relevance : Nat) : Suggestion :=
  Suggestion.new ([backquoteChar] ++ name ++ [backquoteChar])
    ("Table: ".toList ++ name ++ " (in ".toList ++ database ++ " database)".toList)
    .Table relevance

/-- `Suggestion::column` (suggestion.rs). -/
def Suggestion.column (name : Str) (table : Str) (relevance : Nat) : Suggestion :=
  Suggestion.new ([backquoteChar] ++ name ++ [backquoteChar])
    ("Column: ".toList ++ name ++ " (from table ".toList ++ table ++ ")".toList)
    .Column relevance

/-- `Suggestion::sql_keyword` (suggestion.rs). -/
def Suggestion.sql_keyword (keyword description : Str) (relevance : Nat) : Suggestion :=
  Suggestion.new keyword description .SqlKeyword relevance

/-- `Suggestion::function` (suggestion.rs). -/
def Suggestion.function (name description : Str) (relevance : Nat) : Suggestion :=
  Suggestion.new name description .Function relevance

/-- `Suggestion::command` (suggestion.rs). -/
def Suggestion.command (command description : Str) (relevance : Nat) : Suggestion :=
  Suggestion.new command description .Command relevance

/-- `DatabaseMetadata` (metadata.rs).  The two `HashMap`s are modelled as
association lists; `last_update` is an instant in whole seconds. -/
structure DatabaseMetadata where
  databases : List Str
  tables : List (Str × List Str)
  columns : List (Str × List Str)
  last_update : Nat
  has_loaded : Bool
deriving DecidableEq, Repr

/-- `DatabaseMetadata::needs_refresh` (metadata.rs), with the current instant
`now` made explicit: not yet loaded, or more than 300 seconds elapsed. -/
def DatabaseMetadata.needs_refresh (m : DatabaseMetadata) (now : Nat) : Bool :=
  !m.has_loaded || decide (now - m.last_update > 300)

/-- `DatabaseMetadata::is_system_database` (metadata.rs). -/
def DatabaseMetadata.is_system_database (db : Str) : Bool :=
  db == "information_schema".toList || db == "mysql".toList ||
    db == "performance_schema".toList || db == "sys".toList

/-- `DatabaseMetadata::get_databases` (metadata.rs). -/
def DatabaseMetadata.get_databases (m : DatabaseMetadata) : List Str :=
  m.databases

/-- Flattening step of `DatabaseMetadata::get_all_tables` (metadata.rs). -/
def flattenPairs : List (Str × List Str) → List (Str × Str)
  | [] => []
  | (k, vs) :: rest => vs.map (fun v => (k, v)) ++ flattenPairs rest

/-- `DatabaseMetadata::get_all_tables` (metadata.rs): `(database, table)`
pairs in map-iteration order. -/
def DatabaseMetadata.get_all_tables (m : DatabaseMetadata) : List (Str × Str) :=
  flattenPairs m.tables

/-- `DatabaseMetadata::get_all_columns` (metadata.rs): `(table key, column)`
pairs in map-iteration order. -/
def DatabaseMetadata.get_all_columns (m : DatabaseMetadata) : List (Str × Str) :=
  flattenPairs m.columns

/-- `HashMap::insert` on the association-list model: replace the value at an
existing key, otherwise append. -/
def assocInsert (l : List (Str × List Str)) (k : Str) (v : List Str) :
    List (Str × List Str) :=
  if l.any (fun p => p.1 == k) then
    l.map (fun p => if p.1 == k then (k, v) else p)
  else l ++ [(k, v)]

/-- A live connection, as far as the metadata refresh queries it: the three
enumeration queries, each able to fail (`none` = `Err`). -/
structure Conn where
  show_databases : Option (List Str)
  show_tables : Str → Option (List Str)
  show_columns : Str → Str → Option (List Str)

/-- Per-database step of `DatabaseMetadata::update_from_connection`
(metadata.rs): skip system databases, skip databases whose table enumeration
fails, record tables under the lower-cased database name, then record each
table's columns (skipping failures) under the lower-cased `db.table` key. -/
def update_one_database (conn : Conn) (m : DatabaseMetadata) (db : Str) :
    DatabaseMetadata :=
  if DatabaseMetadata.is_system_database db then m
  else
    match conn.show_tables db with
    | none => m
    | some tbls =>
      let m1 := { m with tables := assocInsert m.tables (toLowerStr db) tbls }
      tbls.foldl
        (fun acc table =>
          match conn.show_columns db table with
          | none => acc
          | some cols =>
            { acc with
              columns := assocInsert acc.columns
                (toLowerStr (db ++ ('.' :: table))) cols })
        m1

/-- `DatabaseMetadata::update_from_connection` (metadata.rs).  Returns the
new metadata (`none` = the whole refresh failed, which happens exactly when
`SHOW DATABASES` fails) together with a flag recording whether the
connection was queried at all. -/
def DatabaseMetadata.update_from_connection (m : DatabaseMetadata) (conn : Conn)
    (now : Nat) : Option DatabaseMetadata × Bool :=
  if !(m.needs_refresh now) then (some m, false)
  else
    match conn.show_databases with
    | none => (none, true)
    | some dbs =>
      let m1 := { m with databases := dbs, tables := [], columns := [] }
      let m2 := dbs.foldl (update_one_database conn) m1
      (some { m2 with last_update := now, has_loaded := true }, true)

/-- `SmartSuggestionEngine` (engine.rs).  `metadata` is the metadata mutex:
`some m` when the suggestion path's `try_lock` succeeds and sees snapshot
`m`, `none` when the lock is currently held elsewhere. -/
structure SmartSuggestionEngine where
  metadata : Option DatabaseMetadata
  sql_keywords : List Str
  current_database : Option Str

/-- `SmartSuggestionEngine::calculate_relevance` (engine.rs). -/
def calculate_relevance (item word : Str) (base_score : Nat) : Nat :=
  if word.isEmpty then base_score
  else
    let item_lower := toLowerStr item
    let word_lower := toLowerStr word
    if item_lower == word_lower then 100
    else if word_lower.isPrefixOf item_lower then 95
    else if strContains item_lower word_lower then min (base_score + 5) 85
    else base_score - 10

/-- `SmartSuggestionEngine::get_database_suggestions` (engine.rs): empty on
lock contention; with an empty word every database, otherwise only the
databases whose lower-cased name starts with the lower-cased word. -/
def get_database_suggestions (eng : SmartSuggestionEngine) (word : Str) :
    List Suggestion :=
  match eng.metadata with
  | none => []
  | some metadata =>
    metadata.get_databases.filterMap (fun db =>
      if word.isEmpty then
        some (Suggestion.database db (calculate_relevance db word 90))
      else if (toLowerStr word).isPrefixOf (toLowerStr db) then
        some (Suggestion.database db (calculate_relevance db word 90))
      else none)

/-- `SmartSuggestionEngine::get_table_suggestions` (engine.rs): empty on lock
contention; with an empty word all tables, current-database tables first;
otherwise only tables whose lower-cased name starts with the lower-cased
word, current-database tables at relevance 95. -/
def get_table_suggestions (eng : SmartSuggestionEngine) (word : Str) :
    List Suggestion :=
  match eng.metadata with
  | none => []
  | some metadata =>
    let current_db := eng.current_database
    let allTables := metadata.get_all_tables
    if word.isEmpty then
      let current_db_tables := allTables.filterMap (fun p =>
        if current_db = some p.1 then
          some (Suggestion.table p.2 p.1 (calculate_relevance p.2 word 85))
        else none)
      let other_tables := allTables.filterMap (fun p =>
        if current_db = some p.1 then none
        else some (Suggestion.table p.2 p.1 (calculate_relevance p.2 word 85)))
      current_db_tables ++ other_tables
    else
      allTables.filterMap (fun p =>
        if (toLowerStr word).isPrefixOf (toLowerStr p.2) then
          some (Suggestion.table p.2 p.1
            (if current_db = some p.1 then 95 else calculate_relevance p.2 word 85))
        else none)

/-- `SmartSuggestionEngine::is_sql_keyword` (engine.rs). -/
def is_sql_keyword (eng : SmartSuggestionEngine) (word : Str) : Bool :=
  eng.sql_keywords.contains (toUpperStr word)

/-- The pairwise index walk of
`SmartSuggestionEngine::extract_table_names_from_query` (engine.rs): a token
right after `FROM` or `JOIN`, stripped of backticks, commas and semicolons,
is a table name unless it is a SQL keyword. -/
def extract_go (eng : SmartSuggestionEngine) : List Str → List Str
  | w :: next :: rest =>
    (if toUpperStr w == "FROM".toList || toUpperStr w == "JOIN".toList then
      let t := trimMatches ';' (trimMatches ',' (trimMatches backquoteChar next))
      if is_sql_keyword eng t then [] else [t]
    else []) ++ extract_go eng (next :: rest)
  | _ => []

/-- `SmartSuggestionEngine::extract_table_names_from_query` (engine.rs). -/
def extract_table_names_from_query (eng : SmartSuggestionEngine) (query : Str) :
    List Str :=
  extract_go eng (splitWhitespaceStr query)

/-- The static function catalog of
`SmartSuggestionEngine::get_function_suggestions` (engine.rs). -/
def function_catalog : List (Str × Str) :=
  [("COUNT".toList, "Count rows".toList),
   ("SUM".toList, "Sum values".toList),
   ("AVG".toList, "Average value".toList),
   ("MAX".toList, "Maximum value".toList),
   ("MIN".toList, "Minimum value".toList),
   ("NOW".toList, "Current time".toList),
   ("CONCAT".toList, "String concatenation".toList),
   ("UPPER".toList, "Convert to uppercase".toList),
   ("LOWER".toList, "Convert to lowercase".toList),
   ("SUBSTRING".toList, "String substring".toList),
   ("LENGTH".toList, "String length".toList),
   ("TRIM".toList, "Remove spaces".toList),
   ("DATE".toList, "Date function".toList),
   ("YEAR".toList, "Get year".toList),
   ("MONTH".toList, "Get month".toList),
   ("DAY".toList, "Get day".toList)]

/-- `SmartSuggestionEngine::get_function_suggestions` (engine.rs). -/
def get_function_suggestions (word : Str) : List Suggestion :=
  function_catalog.filterMap (fun p =>
    let relevance := calculate_relevance p.1 word 75
    if relevance > 50 || word.isEmpty then
      some (Suggestion.function p.1 p.2 relevance)
    else none)

/-- The static condition-keyword catalog of
`SmartSuggestionEngine::get_condition_suggestions` (engine.rs). -/
def condition_catalog : List (Str × Str) :=
  [("AND".toList, "Logical AND".toList),
   ("OR".toList, "Logical OR".toList),
   ("NOT".toList, "Logical NOT".toList),
   ("IN".toList, "Contains in list".toList),
   ("LIKE".toList, "Pattern matching".toList),
   ("BETWEEN".toList, "Range condition".toList),
   ("IS NULL".toList, "Is null value".toList),
   ("IS NOT NULL".toList, "Is not null value".toList),
   ("EXISTS".toList, "Exists subquery".toList),
   ("REGEXP".toList, "Regular expression match".toList)]

/-- `SmartSuggestionEngine::get_condition_suggestions` (engine.rs). -/
def get_condition_suggestions (word : Str) : List Suggestion :=
  condition_catalog.filterMap (fun p =>
    let relevance := calculate_relevance p.1 word 70
    if relevance > 50 || word.isEmpty then
      some (Suggestion.sql_keyword p.1 p.2 relevance)
    else none)

/-- `SmartSuggestionEngine::get_sql_keyword_suggestions` (engine.rs). -/
def get_sql_keyword_suggestions (eng : SmartSuggestionEngine) (word : Str) :
    List Suggestion :=
  eng.sql_keywords.filterMap (fun keyword =>
    let relevance := calculate_relevance keyword word 65
    if relevance > 50 || word.isEmpty then
      some (Suggestion.sql_keyword keyword ("SQL keyword: ".toList ++ keyword)
        relevance)
    else none)

/-- `SmartSuggestionEngine::get_common_command_suggestions` (engine.rs). -/
def get_common_command_suggestions : List Suggestion :=
  [Suggestion.command "SELECT * FROM".toList "Query all data from table".toList 95,
   Suggestion.command "SHOW DATABASES".toList "Show all databases".toList 90,
   Suggestion.command "SHOW TABLES".toList "Show all tables in current database".toList 85,
   Suggestion.command "USE".toList "Switch to specified database".toList 80,
   Suggestion.command "DESCRIBE".toList "View table structure".toList 75,
   Suggestion.command "INSERT INTO".toList "Insert data".toList 70,
   Suggestion.command "UPDATE".toList "Update data".toList 65,
   Suggestion.command "DELETE FROM".toList "Delete data".toList 60]

/-- The counting loop of
`SmartSuggestionEngine::get_limited_column_suggestions` (engine.rs), with
the remaining budget as fuel: stop once `limit` columns were emitted, emit a
column only when its relevance exceeds 70. -/
def limited_columns_go (word : Str) : List (Str × Str) → Nat → List Suggestion
  | _, 0 => []
  | [], _ + 1 => []
  | (table, column) :: rest, k + 1 =>
    let relevance := calculate_relevance column word 80
    if relevance > 70 then
      Suggestion.column column table relevance :: limited_columns_go word rest k
    else limited_columns_go word rest (k + 1)

/-- `SmartSuggestionEngine::get_limited_column_suggestions` (engine.rs). -/
def get_limited_column_suggestions (eng : SmartSuggestionEngine) (word : Str)
    (limit : Nat) : List Suggestion :=
  match eng.metadata with
  | none => []
  | some metadata => limited_columns_go word metadata.get_all_columns limit

/-- Per-table step of
`SmartSuggestionEngine::get_column_suggestions_for_query` (engine.rs): only
the current database is consulted; its `db.table` key is looked up in the
column map, and matching columns are emitted. -/
def column_suggestions_go (current_db : Option Str)
    (columnsMap : List (Str × List Str)) (word : Str) : List Str → List Suggestion
  | [] => []
  | table_name :: rest =>
    (match current_db with
     | some current_db_name =>
       let full_table_key := toLowerStr (current_db_name ++ ('.' :: table_name))
       match columnsMap.lookup full_table_key with
       | some columns =>
         columns.filterMap (fun column =>
           if word.isEmpty || (toLowerStr word).isPrefixOf (toLowerStr column) then
             some (Suggestion.column column full_table_key
               (calculate_relevance column word 90))
           else none)
       | none => []
     | none => []) ++ column_suggestions_go current_db columnsMap word rest

/-- `SmartSuggestionEngine::get_column_suggestions_for_query` (engine.rs). -/
def get_column_suggestions_for_query (eng : SmartSuggestionEngine)
    (query word : Str) : List Suggestion :=
  match eng.metadata with
  | none => []
  | some metadata =>
    let table_names := extract_table_names_from_query eng query
    if table_names.isEmpty then get_limited_column_suggestions eng word 20
    else column_suggestions_go eng.current_database metadata.columns word table_names

/-- The placeholder pushed for `UseCommand` when no database suggestion was
produced and the word is empty (engine.rs, `get_suggestions`). -/
def no_databases_placeholder : Suggestion :=
  Suggestion.command "-- No databases available --".toList
    "Connect to a MySQL server with databases".toList 50

/-- The placeholder pushed for `FromClause` when no table suggestion was
produced and the word is empty (engine.rs, `get_suggestions`). -/
def no_tables_placeholder : Suggestion :=
  Suggestion.command "-- No tables available --".toList
    "Connect to a database with tables".toList 50

/-- The per-context candidate assembly of
`SmartSuggestionEngine::get_suggestions` (engine.rs), before sorting and
truncation.  `line_upper` and `word_lower` are the upper-cased line and
lower-cased word computed by the caller; `word` is the original word (the
placeholder branches test the original word's emptiness). -/
def suggestions_for_context (eng : SmartSuggestionEngine) (context : InputContext)
    (line_upper word_lower word : Str) : List Suggestion :=
  match context with
  | .UseCommand =>
    let s := get_database_suggestions eng word_lower
    if s.isEmpty && word.isEmpty then [no_databases_placeholder] else s
  | .FromClause =>
    let s := get_table_suggestions eng word_lower
    if s.isEmpty && word.isEmpty then [no_tables_placeholder] else s
  | .SelectClause =>
    if !(strContains line_upper "FROM".toList) then
      if trimStr line_upper == "SELECT".toList
          || trimStr line_upper == "SELECT ".toList then
        get_sql_keyword_suggestions eng word_lower ++
          (if word_lower.isEmpty then
            [Suggestion.command "*".toList "Select all columns".toList 95,
             Suggestion.command "COUNT(*)".toList "Count all rows".toList 90]
          else [])
      else
        get_function_suggestions word_lower ++
          get_sql_keyword_suggestions eng word_lower ++
          (if !word_lower.isEmpty && word_lower.length ≥ 2 then
            get_limited_column_suggestions eng word_lower 10
          else [])
    else
      get_column_suggestions_for_query eng line_upper word_lower ++
        get_function_suggestions word_lower
  | .WhereClause | .HavingClause | .JoinOnClause =>
    get_column_suggestions_for_query eng line_upper word_lower ++
      get_condition_suggestions word_lower
  | .OrderByClause | .GroupByClause =>
    get_column_suggestions_for_query eng line_upper word_lower
  | .InsertIntoClause | .UpdateClause =>
    get_table_suggestions eng word_lower
  | .General =>
    get_sql_keyword_suggestions eng word_lower ++
      (if word.isEmpty then get_common_command_suggestions else [])

/-- The context-specific truncation limits of
`SmartSuggestionEngine::get_suggestions` (engine.rs). -/
def context_limit (context : InputContext) : Nat :=
  match context with
  | .UseCommand => 20
  | .FromClause | .InsertIntoClause | .UpdateClause => 15
  | .SelectClause => 12
  | .WhereClause | .HavingClause | .JoinOnClause
  | .OrderByClause | .GroupByClause => 15
  | .General => 10

/-- Stable descending insertion step: walk past candidates of strictly
higher relevance, then insert before the first candidate of equal or lower
relevance, so that earlier candidates keep their position among ties. -/
def insertByRelevance (s : Suggestion) : List Suggestion → List Suggestion
  | [] => [s]
  | t :: rest =>
    if s.relevance < t.relevance then t :: insertByRelevance s rest
    else s :: t :: rest

/-- The sort of `SmartSuggestionEngine::get_suggestions` (engine.rs):
`sort_by(|a, b| b.relevance.cmp(&a.relevance))` is a stable sort by
descending relevance, and the output of a stable sort is uniquely
determined by the key, so insertion sort models it exactly. -/
def sort_by_relevance (l : List Suggestion) : List Suggestion :=
  l.foldr insertByRelevance []

/-- `SmartSuggestionEngine::get_suggestions` (engine.rs): classify the
upper-cased line, assemble candidates for that context, sort by descending
relevance and truncate to the context's limit. -/
def get_suggestions (parse : ParseOracle) (eng : SmartSuggestionEngine)
    (line word : Str) : List Suggestion :=
  (sort_by_relevance
      (suggestions_for_context eng (analyze_context parse (toUpperStr line))
        (toUpperStr line) (toLowerStr word) word)).take
    (context_limit (analyze_context parse (toUpperStr line)))

/-- `MySQLCompleter::init_sql_keywords` (helper.rs): the static keyword
catalog handed to the engine at construction. -/
def init_sql_keywords : List Str :=
  ["SELECT", "FROM", "WHERE", "INSERT", "UPDATE", "DELETE", "CREATE", "DROP",
   "ALTER", "TABLE", "DATABASE", "INDEX", "VIEW", "TRIGGER", "PROCEDURE",
   "FUNCTION", "INT", "INTEGER", "BIGINT", "SMALLINT", "TINYINT", "DECIMAL",
   "NUMERIC", "FLOAT", "DOUBLE", "VARCHAR", "CHAR", "TEXT", "LONGTEXT",
   "MEDIUMTEXT", "TINYTEXT", "DATE", "TIME", "DATETIME", "TIMESTAMP", "YEAR",
   "BINARY", "VARBINARY", "BLOB", "LONGBLOB", "MEDIUMBLOB", "TINYBLOB",
   "JSON", "GEOMETRY", "PRIMARY", "KEY", "FOREIGN", "REFERENCES", "UNIQUE",
   "NOT", "NULL", "DEFAULT", "AUTO_INCREMENT", "UNSIGNED", "ZEROFILL",
   "DISTINCT", "ALL", "AS", "JOIN", "INNER", "LEFT", "RIGHT", "FULL",
   "OUTER", "CROSS", "ON", "USING", "UNION", "INTERSECT", "EXCEPT", "ORDER",
   "BY", "GROUP", "HAVING", "LIMIT", "OFFSET", "INTO", "VALUES", "SET",
   "AND", "OR", "NOT", "IN", "EXISTS", "BETWEEN", "LIKE", "REGEXP", "RLIKE",
   "IS", "ISNULL", "CASE", "WHEN", "THEN", "ELSE", "END", "COUNT", "SUM",
   "AVG", "MIN", "MAX", "GROUP_CONCAT", "CONCAT", "SUBSTRING", "LENGTH",
   "CHAR_LENGTH", "UPPER", "LOWER", "TRIM", "LTRIM", "RTRIM", "REPLACE",
   "REVERSE", "ABS", "CEIL", "CEILING", "FLOOR", "ROUND", "MOD", "POW",
   "POWER", "SQRT", "RAND", "SIGN", "PI", "DEGREES", "RADIANS", "SIN",
   "COS", "TAN", "NOW", "CURDATE", "CURTIME", "YEAR", "MONTH", "DAY",
   "HOUR", "MINUTE", "SECOND", "DAYOFWEEK", "DAYOFYEAR", "WEEKDAY",
   "DATE_ADD", "DATE_SUB", "DATEDIFF", "DATE_FORMAT", "STR_TO_DATE", "IF",
   "IFNULL", "NULLIF", "COALESCE", "SHOW", "DESCRIBE", "DESC", "EXPLAIN",
   "USE", "GRANT", "REVOKE", "FLUSH", "RESET", "START", "STOP", "RESTART",
   "BEGIN", "COMMIT", "ROLLBACK", "SAVEPOINT", "RELEASE", "TRANSACTION",
   "READ", "WRITE", "ONLY", "LOCK", "UNLOCK", "TABLES", "ENGINE", "CHARSET",
   "COLLATE", "TEMPORARY", "CASCADE", "RESTRICT"].map String.toList

/-- A parse oracle on which every parse attempt fails.  `sqlparser` in
particular rejects every line used with this oracle below: each such line
either starts with a token that is not a SQL statement keyword or is an
incomplete statement. -/
def noparseOracle : ParseOracle := fun _ => none

/-- C1: for every input line whose first whitespace-delimited token is,
case-insensitively, the USE command, `analyze_context` returns `UseCommand`,
no matter what other keywords or clauses appear later in the line and no
matter what the SQL parser would answer (the USE fast path precedes the
parser). -/
theorem analyze_context_use_first_token (parse : ParseOracle) (line w : Str)
    (hw : (splitWhitespaceStr (trimStr line)).head? = some w)
    (hu : toUpperStr w = "USE".toList) :
    analyze_context parse line = InputContext.UseCommand := by
  have hne : (trimStr line).isEmpty = false := by
    cases hl : trimStr line
    · rw [hl] at hw
      simp [splitWhitespaceStr] at hw
    · rfl
  unfold analyze_context
  simp [hne, hw, hu]

/-- Closed instance of `analyze_context_use_first_token`: a USE line that
also contains WHERE and FROM, against an oracle that claims the line parses
as a non-USE statement, still classifies as `UseCommand`. -/
theorem analyze_context_use_first_token_witness :
    analyze_context (fun _ => some [SqlStmt.query (SqlQueryBody.select true true)])
      "use sales WHERE A FROM B".toList = InputContext.UseCommand :=
  analyze_context_use_first_token _ _ "use".toList (by decide) (by decide)

/-- C4: for every parse-oracle answer, engine state, line and typed word,
the list returned by `get_suggestions` never exceeds the context-specific
cap: 20 for `UseCommand`, 15 for `FromClause`/`InsertIntoClause`/
`UpdateClause` and for the WHERE/HAVING/JOIN-ON/ORDER BY/GROUP BY contexts,
12 for `SelectClause`, and 10 otherwise. -/
theorem get_suggestions_length_le_cap (parse : ParseOracle)
    (eng : SmartSuggestionEngine) (line word : Str) :
    (get_suggestions parse eng line word).length ≤
      (match analyze_context parse (toUpperStr line) with
       | .UseCommand => 20
       | .FromClause | .InsertIntoClause | .UpdateClause => 15
       | .WhereClause | .HavingClause | .JoinOnClause
       | .OrderByClause | .GroupByClause => 15
       | .SelectClause => 12
       | .General => 10) := by
  unfold get_suggestions
  cases h : analyze_context parse (toUpperStr line) <;>
    simp only [h, context_limit] <;>
    exact List.length_take_le _ _

/-- C10: every database, table and column suggestion has its text wrapped in
backquotes: the `Suggestion::database`/`table`/`column` constructors build
the text as a backquote, the bare name, and a closing backquote. -/
theorem suggestion_text_backquoted (name db table : Str) (r : Nat) :
    (Suggestion.database name r).text = "`".toList ++ name ++ "`".toList
    ∧ (Suggestion.table name db r).text = "`".toList ++ name ++ "`".toList
    ∧ (Suggestion.column name table r).text = "`".toList ++ name ++ "`".toList :=
  ⟨rfl, rfl, rfl⟩

/-- Containment is inherited by substrings of the needle. -/
theorem strContains_of_needle_sub (hay n1 n2 : Str) (h : strContains hay n1 = true)
    (hsub : n2 <:+: n1) : strContains hay n2 = true :=
  (strContains_eq_true_iff hay n2).mpr
    (hsub.trans ((strContains_eq_true_iff hay n1).mp h))

/-- C2 counterexample: the line `FOO WHERE X FROM` contains the substring
`' WHERE '`, yet `analyze_context` classifies it as `FromClause`, because in
`analyze_incomplete_sql` the `ends_with("FROM")` test runs before the
`contains("WHERE ")` test.  (`sqlparser` rejects this line — it starts with
the bare identifier `FOO` — so the heuristic tier decides.) -/
theorem analyze_context_where_counterexample :
    strContains (toUpperStr "FOO WHERE X FROM".toList) " WHERE ".toList = true
    ∧ analyze_context noparseOracle "FOO WHERE X FROM".toList
        = InputContext.FromClause
    ∧ analyze_context noparseOracle "FOO WHERE X FROM".toList
        ≠ InputContext.WhereClause := by
  refine ⟨by decide, by decide, by decide⟩

/-- C2 amended: for every line whose first token is not (case-insensitively)
USE and on which the SQL parser fails, if the upper-cased trimmed line ends
with `WHERE`, or contains `' WHERE '` while not ending with any of `FROM`,
`JOIN`, `ON`, `ORDER BY`, `GROUP BY` or `HAVING` (the suffix tests that
precede the `WHERE `-substring test), then `analyze_context` returns
`WhereClause`, even when the line also contains `FROM`. -/
theorem analyze_context_where_amended (parse : ParseOracle) (line : Str)
    (hp : parse (trimStr line) = none)
    (huse : ∀ w, (splitWhitespaceStr (trimStr line)).head? = some w →
      toUpperStr w ≠ "USE".toList)
    (hmain : "WHERE".toList.isSuffixOf (toUpperStr (trimStr line)) = true
      ∨ (strContains (toUpperStr (trimStr line)) " WHERE ".toList = true
         ∧ "FROM".toList.isSuffixOf (toUpperStr (trimStr line)) = false
         ∧ "JOIN".toList.isSuffixOf (toUpperStr (trimStr line)) = false
         ∧ "ON".toList.isSuffixOf (toUpperStr (trimStr line)) = false
         ∧ "ORDER BY".toList.isSuffixOf (toUpperStr (trimStr line)) = false
         ∧ "GROUP BY".toList.isSuffixOf (toUpperStr (trimStr line)) = false
         ∧ "HAVING".toList.isSuffixOf (toUpperStr (trimStr line)) = false)) :
    analyze_context parse line = InputContext.WhereClause := by
  have hne : (trimStr line).isEmpty = false := by
    cases hl : trimStr line
    · exfalso
      rw [hl] at hmain
      revert hmain
      decide
    · rfl
  have hsql : analyze_sql_context parse (trimStr line)
      = analyze_incomplete_sql (trimStr line) := by
    unfold analyze_sql_context
    rw [hp]
  have hinc : analyze_incomplete_sql (trimStr line)
      = some InputContext.WhereClause := by
    have toProp : ∀ n : Str, n.isSuffixOf (toUpperStr (trimStr line)) = false →
        ¬ (n <:+ toUpperStr (trimStr line)) := by
      intro n hn hs
      rw [← List.isSuffixOf_iff_suffix, hn] at hs
      exact Bool.false_ne_true hs
    unfold analyze_incomplete_sql
    rcases hmain with h | ⟨hc, h1, h2, h3, h4, h5, h6⟩
    · have hP : ['W', 'H', 'E', 'R', 'E'] <:+ toUpperStr (trimStr line) := by
        simpa using List.isSuffixOf_iff_suffix.mp h
      simp [hP]
    · have hc' : strContains (toUpperStr (trimStr line))
          ['W', 'H', 'E', 'R', 'E', ' '] = true := by
        simpa using strContains_of_needle_sub _ _ _ hc (by decide)
      have h1' : ¬ (['F', 'R', 'O', 'M'] <:+ toUpperStr (trimStr line)) := by
        simpa using toProp _ h1
      have h2' : ¬ (['J', 'O', 'I', 'N'] <:+ toUpperStr (trimStr line)) := by
        simpa using toProp _ h2
      have h3' : ¬ (['O', 'N'] <:+ toUpperStr (trimStr line)) := by
        simpa using toProp _ h3
      have h4' : ¬ (['O', 'R', 'D', 'E', 'R', ' ', 'B', 'Y'] <:+
          toUpperStr (trimStr line)) := by
        simpa using toProp _ h4
      have h5' : ¬ (['G', 'R', 'O', 'U', 'P', ' ', 'B', 'Y'] <:+
          toUpperStr (trimStr line)) := by
        simpa using toProp _ h5
      have h6' : ¬ (['H', 'A', 'V', 'I', 'N', 'G'] <:+ toUpperStr (trimStr line)) := by
        simpa using toProp _ h6
      by_cases hwend : ['W', 'H', 'E', 'R', 'E'] <:+ toUpperStr (trimStr line)
      · simp [hwend]
      · simp [hwend, h1', h2', h3', h4', h5', h6', hc']
  unfold analyze_context
  cases hh : (splitWhitespaceStr (trimStr line)).head? with
  | none => simp [hne, hh, hsql, hinc]
  | some w =>
    have hwne : ¬ toUpperStr w = ['U', 'S', 'E'] := by
      simpa using huse w hh
    simp [hne, hh, hwne, hsql, hinc]

/-- Closed instance of `analyze_context_where_amended`: the dangling-WHERE
line `SELECT A FROM T WHERE` (which `sqlparser` rejects) classifies as
`WhereClause` although it contains `FROM`. -/
theorem analyze_context_where_amended_witness :
    analyze_context noparseOracle "SELECT A FROM T WHERE".toList
      = InputContext.WhereClause :=
  analyze_context_where_amended noparseOracle _ rfl
    (by
      intro w hw
      have h0 : some ("SELECT".toList) = some w := by
        rw [← hw]
        decide
      cases h0
      decide)
    (Or.inl (by decide))

/-- A lower-cased prefix match is in particular a containment match. -/
theorem strContains_of_isPrefixOf (needle hay : Str)
    (h : needle.isPrefixOf hay = true) : strContains hay needle = true :=
  (strContains_eq_true_iff hay needle).mpr
    (List.isPrefixOf_iff_prefix.mp h).isInfix

/-- C3: for every non-empty typed word and candidates sharing the same base
score, `calculate_relevance` ranks an exact case-insensitive match (100)
strictly above a case-insensitive proper prefix match (95), a prefix match
strictly above a substring match (`min (base + 5) 85`), and a substring
match strictly above a non-match (`base - 10`).  The bound `base ≤ 90`
records that 90 is the largest base score the engine ever passes to
`calculate_relevance` (the direct 95 for current-database tables bypasses
it). -/
theorem calculate_relevance_ordering (item1 item2 item3 item4 word : Str)
    (base : Nat) (hw : word ≠ []) (hbase : base ≤ 90)
    (h1 : toLowerStr item1 = toLowerStr word)
    (h2 : (toLowerStr word).isPrefixOf (toLowerStr item2) = true)
    (h2x : toLowerStr item2 ≠ toLowerStr word)
    (h3 : strContains (toLowerStr item3) (toLowerStr word) = true)
    (h3x : (toLowerStr word).isPrefixOf (toLowerStr item3) = false)
    (h4 : strContains (toLowerStr item4) (toLowerStr word) = false) :
    calculate_relevance item2 word base < calculate_relevance item1 word base
    ∧ calculate_relevance item3 word base < calculate_relevance item2 word base
    ∧ calculate_relevance item4 word base < calculate_relevance item3 word base := by
  have hwe : word.isEmpty = false := by
    cases word
    · exact absurd rfl hw
    · rfl
  have e1 : calculate_relevance item1 word base = 100 := by
    unfold calculate_relevance
    simp [hwe, h1]
  have e2 : calculate_relevance item2 word base = 95 := by
    unfold calculate_relevance
    simp [hwe, h2, h2x]
  have h3e : toLowerStr item3 ≠ toLowerStr word := by
    intro hx
    rw [hx] at h3x
    have : (toLowerStr word).isPrefixOf (toLowerStr word) = true :=
      List.isPrefixOf_iff_prefix.mpr List.prefix_rfl
    rw [h3x] at this
    exact Bool.false_ne_true this
  have e3 : calculate_relevance item3 word base = min (base + 5) 85 := by
    unfold calculate_relevance
    simp [hwe, h3e, h3x, h3]
  have h4p : (toLowerStr word).isPrefixOf (toLowerStr item4) = false := by
    cases hx : (toLowerStr word).isPrefixOf (toLowerStr item4)
    · rfl
    · rw [strContains_of_isPrefixOf _ _ hx] at h4
      exact absurd h4 (by simp)
  have h4e : toLowerStr item4 ≠ toLowerStr word := by
    intro hx
    rw [hx] at h4p
    have : (toLowerStr word).isPrefixOf (toLowerStr word) = true :=
      List.isPrefixOf_iff_prefix.mpr List.prefix_rfl
    rw [h4p] at this
    exact Bool.false_ne_true this
  have e4 : calculate_relevance item4 word base = base - 10 := by
    unfold calculate_relevance
    simp [hwe, h4e, h4p, h4]
  rw [e1, e2, e3, e4]
  omega

/-- Closed instance of `calculate_relevance_ordering` at base score 65 and
word `us`: `US` (exact, 100) above `user` (prefix, 95) above `status`
(substring, 70) above `id` (non-match, 55). -/
theorem calculate_relevance_ordering_witness :
    calculate_relevance "user".toList "us".toList 65
        < calculate_relevance "US".toList "us".toList 65
    ∧ calculate_relevance "status".toList "us".toList 65
        < calculate_relevance "user".toList "us".toList 65
    ∧ calculate_relevance "id".toList "us".toList 65
        < calculate_relevance "status".toList "us".toList 65 :=
  calculate_relevance_ordering "US".toList "user".toList "status".toList
    "id".toList "us".toList 65 (by decide) (by decide) (by decide) (by decide)
    (by decide) (by decide) (by decide) (by decide)

/-- An engine whose metadata mutex is currently held elsewhere (the
suggestion path's `try_lock` fails). -/
def lockedEngine : SmartSuggestionEngine :=
  { metadata := none, sql_keywords := init_sql_keywords,
    current_database := none }

/-- C5 counterexample: with the metadata lock held and an empty typed word,
a `FromClause` query does not return an empty list — it returns the
`-- No tables available --` placeholder suggestion, because
`get_suggestions` pushes it whenever the table suggestions come back empty
and the word is empty. -/
theorem from_clause_lock_held_counterexample :
    get_suggestions noparseOracle lockedEngine "SELECT * FROM ".toList []
        = [no_tables_placeholder]
    ∧ get_suggestions noparseOracle lockedEngine "SELECT * FROM ".toList []
        ≠ [] := by
  refine ⟨by decide, by decide⟩

/-- C5 amended: if the metadata mutex is already held when a suggestion
query for the `FromClause` context runs, the metadata-backed table lookup
contributes nothing and the query returns immediately: an empty list when
the typed word is non-empty, and the single `-- No tables available --`
placeholder when the typed word is empty. -/
theorem from_clause_lock_held (parse : ParseOracle)
    (eng : SmartSuggestionEngine) (line word : Str)
    (hlock : eng.metadata = none)
    (hctx : analyze_context parse (toUpperStr line) = InputContext.FromClause) :
    (word ≠ [] → get_suggestions parse eng line word = [])
    ∧ (word = [] → get_suggestions parse eng line word
        = [no_tables_placeholder]) := by
  have htab : get_table_suggestions eng (toLowerStr word) = [] := by
    unfold get_table_suggestions
    rw [hlock]
  constructor
  · intro hne
    have hwe : word.isEmpty = false := by
      cases word
      · exact absurd rfl hne
      · rfl
    unfold get_suggestions
    rw [hctx]
    simp [suggestions_for_context, htab, hwe, sort_by_relevance, context_limit]
  · intro he
    subst he
    unfold get_suggestions
    rw [hctx]
    simp [suggestions_for_context, htab, sort_by_relevance, context_limit,
      insertByRelevance]

/-- Closed instance of `from_clause_lock_held`: both branches at the line
`SELECT * FROM ` with the lock held. -/
theorem from_clause_lock_held_witness :
    get_suggestions noparseOracle lockedEngine "SELECT * FROM ".toList ['a'] = []
    ∧ get_suggestions noparseOracle lockedEngine "SELECT * FROM ".toList []
        = [no_tables_placeholder] :=
  ⟨(from_clause_lock_held noparseOracle lockedEngine "SELECT * FROM ".toList
      ['a'] rfl (by decide)).1 (by decide),
   (from_clause_lock_held noparseOracle lockedEngine "SELECT * FROM ".toList
      [] rfl (by decide)).2 rfl⟩

/-- C6: a refresh while the cache is fresh (loaded, and at most 300 seconds
since the last successful refresh) returns success without querying the
connection and leaves the metadata — databases, tables, columns and the
staleness clock — unchanged; consequently, after a refresh that did query
the connection and succeeded, a second refresh within the window queries
nothing and changes nothing, so two refresh calls within the window perform
the enumeration exactly once. -/
theorem update_from_connection_fresh_noop (conn conn2 : Conn) (now now2 : Nat)
    (m m1 : DatabaseMetadata) :
    (m.has_loaded = true → now - m.last_update ≤ 300 →
      m.update_from_connection conn now = (some m, false))
    ∧ (m.update_from_connection conn now = (some m1, true) →
      now2 - now ≤ 300 →
      m1.update_from_connection conn2 now2 = (some m1, false)) := by
  constructor
  · intro hl he
    have hfresh : m.needs_refresh now = false := by
      unfold DatabaseMetadata.needs_refresh
      rw [hl]
      simp
      omega
    unfold DatabaseMetadata.update_from_connection
    simp [hfresh]
  · intro hsucc he
    unfold DatabaseMetadata.update_from_connection at hsucc
    by_cases hn : m.needs_refresh now = true
    · simp only [hn, Bool.not_true, Bool.false_eq_true, if_false] at hsucc
      cases hdb : conn.show_databases with
      | none =>
        rw [hdb] at hsucc
        simp at hsucc
      | some dbs =>
        rw [hdb] at hsucc
        simp only [Prod.mk.injEq, Option.some.injEq] at hsucc
        obtain ⟨hm1, -⟩ := hsucc
        have hl1 : m1.has_loaded = true := by
          rw [← hm1]
        have hu1 : m1.last_update = now := by
          rw [← hm1]
        have hfresh : m1.needs_refresh now2 = false := by
          unfold DatabaseMetadata.needs_refresh
          rw [hl1, hu1]
          simp
          omega
        unfold DatabaseMetadata.update_from_connection
        simp [hfresh]
    · have hn' : m.needs_refresh now = false := by
        cases hx : m.needs_refresh now
        · rfl
        · exact absurd hx hn
      simp [hn'] at hsucc

/-- A connection whose database enumeration yields no databases. -/
def emptyConn : Conn :=
  { show_databases := some [], show_tables := fun _ => none,
    show_columns := fun _ _ => none }

/-- An empty metadata snapshot loaded at instant 0. -/
def mFresh : DatabaseMetadata :=
  { databases := [], tables := [], columns := [], last_update := 0,
    has_loaded := true }

/-- An empty metadata snapshot that was never loaded. -/
def mUnloaded : DatabaseMetadata :=
  { databases := [], tables := [], columns := [], last_update := 0,
    has_loaded := false }

/-- The snapshot produced by refreshing `mUnloaded` over `emptyConn` at
instant 50. -/
def mRefreshed : DatabaseMetadata :=
  { databases := [], tables := [], columns := [], last_update := 50,
    has_loaded := true }

/-- Closed instance of `update_from_connection_fresh_noop`: a fresh cache at
100 s is left untouched without querying, and after a first (querying)
refresh of an unloaded cache at 50 s, a second refresh at 60 s is a
query-free no-op. -/
theorem update_from_connection_fresh_noop_witness :
    mFresh.update_from_connection emptyConn 100 = (some mFresh, false)
    ∧ mRefreshed.update_from_connection emptyConn 60 = (some mRefreshed, false) :=
  ⟨(update_from_connection_fresh_noop emptyConn emptyConn 100 0
      mFresh mFresh).1 rfl (by omega),
   (update_from_connection_fresh_noop emptyConn emptyConn 50 60
      mUnloaded mRefreshed).2 (by decide) (by omega)⟩

/-- When the parser fails on the trimmed line, classification agrees with
the everywhere-failing oracle. -/
theorem analyze_context_of_parse_err (parse : ParseOracle) (line : Str)
    (hp : parse (trimStr line) = none) :
    analyze_context parse line = analyze_context noparseOracle line := by
  unfold analyze_context analyze_sql_context
  simp only [hp, noparseOracle]

set_option maxRecDepth 100000 in
/-- C7: for the input line `SELECT ` (no FROM yet) with an empty typed word,
whatever the metadata snapshot and current database, the suggestion list
returned by `get_suggestions` has the literal `*` with relevance 95 ranked
first, above `COUNT(*)` with relevance 90 ranked second.  (`sqlparser`
rejects the bare line `SELECT`, whose projection is missing, so the
heuristic tier classifies it as `SelectClause`.) -/
theorem select_star_above_count (parse : ParseOracle)
    (m : Option DatabaseMetadata) (cdb : Option Str)
    (hp : parse "SELECT".toList = none) :
    (get_suggestions parse ⟨m, init_sql_keywords, cdb⟩
        "SELECT ".toList []).head?
      = some (Suggestion.command "*".toList "Select all columns".toList 95)
    ∧ (get_suggestions parse ⟨m, init_sql_keywords, cdb⟩
        "SELECT ".toList []).get? 1
      = some (Suggestion.command "COUNT(*)".toList "Count all rows".toList 90) := by
  have hp' : parse (trimStr (toUpperStr "SELECT ".toList)) = none := by
    rw [show trimStr (toUpperStr "SELECT ".toList) = "SELECT".toList from by decide]
    exact hp
  have hctx : analyze_context parse (toUpperStr "SELECT ".toList)
      = InputContext.SelectClause := by
    rw [analyze_context_of_parse_err parse _ hp']
    decide
  unfold get_suggestions
  rw [hctx]
  exact ⟨rfl, rfl⟩

set_option maxRecDepth 100000 in
/-- Closed instance of `select_star_above_count` with the everywhere-failing
oracle and an empty snapshot. -/
theorem select_star_above_count_witness :
    (get_suggestions noparseOracle ⟨some mFresh, init_sql_keywords, none⟩
        "SELECT ".toList []).head?
      = some (Suggestion.command "*".toList "Select all columns".toList 95)
    ∧ (get_suggestions noparseOracle ⟨some mFresh, init_sql_keywords, none⟩
        "SELECT ".toList []).get? 1
      = some (Suggestion.command "COUNT(*)".toList "Count all rows".toList 90) :=
  select_star_above_count noparseOracle (some mFresh) none rfl

/-- C8: for every non-empty typed word, database suggestions (`UseCommand`
context) and table suggestions (FROM/INSERT/UPDATE contexts) contain only
names whose lower-cased form starts with the lower-cased word — candidates
that merely contain the word, or do not match at all, are omitted entirely
rather than listed with a reduced score. -/
theorem prefix_only_filtering (eng : SmartSuggestionEngine) (word : Str)
    (s : Suggestion) (hw : word ≠ []) :
    (s ∈ get_database_suggestions eng word →
      ∃ db, toLowerStr word <+: toLowerStr db
        ∧ s = Suggestion.database db (calculate_relevance db word 90))
    ∧ (s ∈ get_table_suggestions eng word →
      ∃ db table, toLowerStr word <+: toLowerStr table
        ∧ s = Suggestion.table table db
            (if eng.current_database = some db then 95
             else calculate_relevance table word 85)) := by
  have hwe : word.isEmpty = false := by
    cases word
    · exact absurd rfl hw
    · rfl
  constructor
  · intro hmem
    unfold get_database_suggestions at hmem
    cases hm : eng.metadata with
    | none =>
      rw [hm] at hmem
      simp at hmem
    | some md =>
      rw [hm] at hmem
      simp only [List.mem_filterMap] at hmem
      obtain ⟨db, hdb, hf⟩ := hmem
      simp [hwe] at hf
      by_cases hp : toLowerStr word <+: toLowerStr db
      · simp [hp] at hf
        exact ⟨db, hp, hf.symm⟩
      · simp [hp] at hf
  · intro hmem
    unfold get_table_suggestions at hmem
    cases hm : eng.metadata with
    | none =>
      rw [hm] at hmem
      simp at hmem
    | some md =>
      rw [hm] at hmem
      simp only [hwe, Bool.false_eq_true, if_false, List.mem_filterMap] at hmem
      obtain ⟨p, hpmem, hf⟩ := hmem
      obtain ⟨db, table⟩ := p
      by_cases hp : toLowerStr word <+: toLowerStr table
      · simp [hp] at hf
        exact ⟨db, table, hp, hf.symm⟩
      · simp [hp] at hf

/-- A snapshot with two databases and one table, for the closed instances. -/
def metaTwoDbs : DatabaseMetadata :=
  { databases := ["test_db".toList, "sales".toList],
    tables := [("test_db".toList, ["users".toList])], columns := [],
    last_update := 0, has_loaded := true }

/-- An unlocked engine over `metaTwoDbs` with no current database. -/
def engTwoDbs : SmartSuggestionEngine :=
  { metadata := some metaTwoDbs, sql_keywords := init_sql_keywords,
    current_database := none }

/-- Closed instance of `prefix_only_filtering`: the database suggestion
produced for the word `te` comes from a database whose lower-cased name
starts with `te`. -/
theorem prefix_only_filtering_witness :
    ∃ db, toLowerStr "te".toList <+: toLowerStr db
      ∧ Suggestion.database "test_db".toList
          (calculate_relevance "test_db".toList "te".toList 90)
        = Suggestion.database db (calculate_relevance db "te".toList 90) :=
  (prefix_only_filtering engTwoDbs "te".toList
      (Suggestion.database "test_db".toList
        (calculate_relevance "test_db".toList "te".toList 90))
      (by decide)).1 (by decide)

/-- Without a current database, the per-table column walk emits nothing. -/
theorem column_suggestions_go_none (cm : List (Str × List Str)) (w : Str)
    (l : List Str) : column_suggestions_go none cm w l = [] := by
  induction l with
  | nil => rfl
  | cons a t ih => simp [column_suggestions_go, ih]

/-- C9: column suggestions for a query that references tables are looked up
only under the current database: whenever the extracted table-name list is
non-empty and the current-database pointer is `none`,
`get_column_suggestions_for_query` returns no suggestions, even when the
metadata cache holds columns for those tables under some database. -/
theorem columns_need_current_database (eng : SmartSuggestionEngine)
    (query word : Str) (hdb : eng.current_database = none)
    (hnames : extract_table_names_from_query eng query ≠ []) :
    get_column_suggestions_for_query eng query word = [] := by
  unfold get_column_suggestions_for_query
  cases hm : eng.metadata with
  | none => rfl
  | some md =>
    have hne : (extract_table_names_from_query eng query).isEmpty = false := by
      cases hx : extract_table_names_from_query eng query
      · exact absurd hx hnames
      · rfl
    simp [hne, hdb, column_suggestions_go_none]

/-- A snapshot that does hold columns for table `t` under database `db`. -/
def metaWithColumns : DatabaseMetadata :=
  { databases := ["db".toList], tables := [("db".toList, ["t".toList])],
    columns := [("db.t".toList, ["c1".toList])], last_update := 0,
    has_loaded := true }

/-- An unlocked engine over `metaWithColumns` whose current-database pointer
is `none`. -/
def engNoCurrent : SmartSuggestionEngine :=
  { metadata := some metaWithColumns, sql_keywords := init_sql_keywords,
    current_database := none }

/-- Closed instance of `columns_need_current_database`: the line references
table `T`, the cache knows `db.t`, yet no column suggestion is produced. -/
theorem columns_need_current_database_witness :
    get_column_suggestions_for_query engNoCurrent
      "SELECT * FROM T WHERE".toList [] = [] :=
  columns_need_current_database engNoCurrent "SELECT * FROM T WHERE".toList []
    rfl (by decide)
